import Mathlib

/-!
Shallow embedding of src/mcp-client.ts (an MCP command-line client that
bridges a chat-completion model to a tool-execution server) and proofs
about its core orchestration logic.

Modelling conventions:
- JavaScript JSON values are the inductive `Json` below; numbers are
  restricted to integers, which covers every value the program is
  exercised on here.
- `JSON.stringify` is `Json.stringify`; `JSON.parse` of a tool-call
  argument payload is represented by storing the parse result on the
  tool call (`arguments : Option Json`, `none` when the payload is not
  valid JSON, in which case the source throws).
- The two chat-completion responses and the MCP `callTool` method are
  external collaborators; they enter as an explicit environment `Env`.
- Side effects (completion calls, tool invocations, console logging,
  pushes onto the `finalText` accumulator) are recorded in an ordered
  `Event` trace returned alongside the result, mirroring the order of
  the statements in the source.
-/

/-- JSON values (numbers restricted to integers). -/
inductive Json where
  | null
  | bool (b : Bool)
  | num (n : Int)
  | str (s : String)
  | arr (xs : List Json)
  | obj (fields : List (String × Json))
deriving Repr

/-- JavaScript truthiness of a JSON value. -/
def Json.truthy : Json → Bool
  | .null => false
  | .bool b => b
  | .num n => n != 0
  | .str s => s != ""
  | .arr _ => true
  | .obj _ => true

/-- Lower-case hexadecimal digit, as produced by JSON.stringify escapes. -/
def hexDigit (n : Nat) : Char :=
  if n < 10 then Char.ofNat (48 + n) else Char.ofNat (87 + n)

/-- Escape one character the way JSON.stringify escapes string contents. -/
def escapeChar (c : Char) : String :=
  if c = '"' then "\\\""
  else if c = '\\' then "\\\\"
  else if c = '\n' then "\\n"
  else if c = '\r' then "\\r"
  else if c = '\t' then "\\t"
  else if c = '\x08' then "\\b"
  else if c = '\x0c' then "\\f"
  else if c.toNat < 32 then
    "\\u00" ++ String.singleton (hexDigit (c.toNat / 16)) ++ String.singleton (hexDigit (c.toNat % 16))
  else String.singleton c

/-- Escape a whole string for JSON output. -/
def escapeString (s : String) : String :=
  s.data.foldl (fun acc c => acc ++ escapeChar c) ""

mutual

/-- JSON.stringify (on the integer-numbered fragment of JSON). -/
def Json.stringify : Json → String
  | .null => "null"
  | .bool true => "true"
  | .bool false => "false"
  | .num n => toString n
  | .str s => "\"" ++ escapeString s ++ "\""
  | .arr xs => "[" ++ stringifyList xs ++ "]"
  | .obj fs => "\x7b" ++ stringifyFields fs ++ "\x7d"

/-- Comma-separated serialization of array elements. -/
def stringifyList : List Json → String
  | [] => ""
  | [x] => Json.stringify x
  | x :: y :: rest => Json.stringify x ++ "," ++ stringifyList (y :: rest)

/-- Comma-separated serialization of object fields, in insertion order. -/
def stringifyFields : List (String × Json) → String
  | [] => ""
  | [(k, v)] => "\"" ++ escapeString k ++ "\":" ++ Json.stringify v
  | (k, v) :: f :: rest =>
      "\"" ++ escapeString k ++ "\":" ++ Json.stringify v ++ "," ++ stringifyFields (f :: rest)

end

/-- The input schema carried by a discovered MCP tool: an object whose
`properties` and `required` members may be absent (absent or JS-falsy is
`none`). -/
structure InputSchema where
  properties : Option Json
  required : Option (List String)

/-- A tool descriptor as handed to `openAiToolAdapter` in the source:
name, optional description, and an input schema. -/
structure ToolDescriptor where
  name : String
  description : Option String
  input_schema : InputSchema

/-- The `parameters` member of an adapted OpenAI function spec. -/
structure FunctionParameters where
  type : String
  properties : Json
  required : List String
deriving Repr

/-- The `function` member of an adapted OpenAI tool spec. -/
structure FunctionSpec where
  name : String
  description : String
  parameters : FunctionParameters
deriving Repr

/-- An OpenAI-format tool spec, the output of `openAiToolAdapter`. -/
structure OpenAiTool where
  type : String
  function : FunctionSpec
deriving Repr

/-- JavaScript `a || b` on an optional string: `b` when `a` is absent or
the empty string (both falsy). -/
def jsStrOr (a : Option String) (b : String) : String :=
  match a with
  | none => b
  | some s => if s = "" then b else s

/-- JavaScript `a || b` on an optional JSON value: `b` when `a` is absent
or falsy. -/
def jsJsonOr (a : Option Json) (b : Json) : Json :=
  match a with
  | none => b
  | some j => if j.truthy then j else b

/-- The schema adapter from src/mcp-client.ts lines 16-33: adapts an MCP
tool descriptor to the OpenAI function-calling format, defaulting the
description to "Tool: <name>" and the schema members to empty. -/
def openAiToolAdapter (tool : ToolDescriptor) : OpenAiTool :=
  { type := "function"
  , function :=
    { name := tool.name
    , description := jsStrOr tool.description ("Tool: " ++ tool.name)
    , parameters :=
      { type := "object"
      , properties := jsJsonOr tool.input_schema.properties (Json.obj [])
      , required :=
          match tool.input_schema.required with
          | none => []
          | some r => r } } }

/-- The `function` member of a model tool-call request. The `arguments`
field stores the result of `JSON.parse` on the JSON payload the model
supplied; `none` means the payload was not valid JSON, in which case the
source JSON.parse call throws. -/
structure ToolCallFunction where
  name : String
  arguments : Option Json

/-- A tool-call request from the model: correlation id plus function. -/
structure ToolCall where
  id : String
  function : ToolCallFunction

/-- A chat-completion response message (`choice.message` in the source):
optional text content and an optional list of tool-call requests. -/
structure ModelMessage where
  content : Option String
  tool_calls : Option (List ToolCall)

/-- The three chat message shapes the source pushes onto `messages`. -/
inductive ChatMessage where
  | user (content : String)
  | assistant (content : String) (tool_calls : List ToolCall)
  | tool (content : String) (tool_call_id : String)

/-- Result payload returned by the MCP `callTool` method; the source only
reads its `content` member. -/
structure ToolResult where
  content : Json

/-- The per-call record accumulated by `callTools`. -/
structure ToolInvocationResult where
  toolCallId : String
  result : ToolResult

/-- Failures the MCP `callTool` method can surface. -/
inductive ToolError where
  | toolNotFound (name : String)
  | toolExecution (name : String)
deriving Repr, DecidableEq

/-- Errors that escape `processQuery`: a JSON.parse failure on tool-call
arguments, or a tool failure propagated from the transport. -/
inductive QueryError where
  | argumentParse (toolName : String)
  | toolFailure (e : ToolError)
deriving Repr, DecidableEq

/-- Observable effects of one `processQuery` run, in program order. -/
inductive Event where
  | completion (messages : List ChatMessage) (tools : Option (List OpenAiTool))
  | invoke (name : String) (args : Json)
  | consoleLog (line : String)
  | pushText (line : String)

/-- The external environment of one `processQuery` run: the first and
second chat-completion responses and the MCP tool-invocation method. -/
structure Env where
  resp1 : ModelMessage
  resp2 : ModelMessage
  invoke : String → Json → Except ToolError ToolResult

/-- JavaScript truthiness of the optional `content` field ("" is falsy). -/
def truthyStr : Option String → Bool
  | none => false
  | some s => s != ""

/-- The console.log line printed before each tool invocation. -/
def logLine (name : String) (args : Json) : String :=
  "Calling tool " ++ name ++ " with args " ++ args.stringify

/-- The trace line pushed onto `finalText` for each tool invocation. -/
def traceLine (name : String) (args : Json) : String :=
  "[Calling tool " ++ name ++ " with args " ++ args.stringify ++ "]"

/-- The `tools` argument of both chat-completion calls:
`this.tools.length > 0 ? this.tools : undefined`. -/
def toolsParam (tools : List OpenAiTool) : Option (List OpenAiTool) :=
  if tools.length > 0 then some tools else none

/-- `callTools` from src/mcp-client.ts lines 157-183: sequentially, for
each tool call, parse its arguments (throwing on invalid JSON), print a
console line, invoke the tool over MCP, push the trace line onto
`finalText`, and record the result. Returns the accumulated results (or
the first error), the event trace, and the `finalText` pushes. -/
def callTools (inv : String → Json → Except ToolError ToolResult) :
    List ToolCall → Except QueryError (List ToolInvocationResult) × List Event × List String
  | [] => (Except.ok [], [], [])
  | tc :: rest =>
    match tc.function.arguments with
    | none => (Except.error (QueryError.argumentParse tc.function.name), [], [])
    | some args =>
      match inv tc.function.name args with
      | Except.error e =>
          (Except.error (QueryError.toolFailure e),
           [Event.consoleLog (logLine tc.function.name args),
            Event.invoke tc.function.name args],
           [])
      | Except.ok res =>
          let r := callTools inv rest
          (r.1.map (fun rs => { toolCallId := tc.id, result := res } :: rs),
           Event.consoleLog (logLine tc.function.name args) ::
             Event.invoke tc.function.name args ::
             Event.pushText (traceLine tc.function.name args) :: r.2.1,
           traceLine tc.function.name args :: r.2.2)

/-- The `finalText` entry contributed by a first- or second-round
response content (pushed only when truthy). -/
def contentTexts (m : ModelMessage) : List String :=
  if truthyStr m.content then [m.content.getD ""] else []

/-- `processQuery` from src/mcp-client.ts lines 93-155: seed a fresh
message list with the user query, make the first completion call, push
truthy content, and if a tool-call list is present run `callTools`,
append the assistant echo and one tool message per result, make the
second completion call, and push its truthy content; return the
newline-join of `finalText` together with the event trace. -/
def processQuery (env : Env) (tools : List OpenAiTool) (query : String) :
    Except QueryError String × List Event :=
  let messages : List ChatMessage := [ChatMessage.user query]
  let toolsArg := toolsParam tools
  let ev1 := Event.completion messages toolsArg
  let choice := env.resp1
  let contentEvs := (contentTexts choice).map Event.pushText
  match choice.tool_calls with
  | none =>
      (Except.ok (String.intercalate "\n" (contentTexts choice)), ev1 :: contentEvs)
  | some toolCalls =>
      let c := callTools env.invoke toolCalls
      match c.1 with
      | Except.error e => (Except.error e, ev1 :: contentEvs ++ c.2.1)
      | Except.ok toolResults =>
          let assistantMsg := ChatMessage.assistant (choice.content.getD "") toolCalls
          let toolMsgs := toolResults.map fun r =>
            ChatMessage.tool (Json.stringify r.result.content) r.toolCallId
          let messages2 := messages ++ assistantMsg :: toolMsgs
          let ev2 := Event.completion messages2 toolsArg
          let finalChoice := env.resp2
          (Except.ok (String.intercalate "\n"
              (contentTexts choice ++ c.2.2 ++ contentTexts finalChoice)),
           ev1 :: contentEvs ++ c.2.1 ++ ev2 :: (contentTexts finalChoice).map Event.pushText)

/-- The session state held by the `MCPClient` object that `processQuery`
can see: the adapted tool-spec list (the transport handle is carried
implicitly by `Env.invoke`). -/
structure MCPClientState where
  tools : List OpenAiTool

/-- `processQuery` as a method on the client state: the body reads
`this.tools` and assigns no field, so the state passes through
unchanged. -/
def processQueryS (env : Env) (st : MCPClientState) (query : String) :
    (Except QueryError String × List Event) × MCPClientState :=
  (processQuery env st.tools query, st)

/-- `chatLoop` from src/mcp-client.ts lines 197-219 over a finite input
line list: stop on the exact "exit" token or end of input; otherwise run
the query processor; a thrown error propagates out of the loop (there is
no per-query catch). Returns the printed responses and the escaping
error, if any. -/
def chatLoop (process : String → Except QueryError String) :
    List String → List String × Option QueryError
  | [] => ([], none)
  | q :: rest =>
    if q = "exit" then ([], none)
    else
      match process q with
      | Except.error e => ([], some e)
      | Except.ok r =>
          let t := chatLoop process rest
          (r :: t.1, t.2)

/-- Whether an event is a chat-completion call. -/
def Event.isCompletion : Event → Bool
  | .completion _ _ => true
  | _ => false

/-- Whether an event is a transport tool invocation. -/
def Event.isInvoke : Event → Bool
  | .invoke _ _ => true
  | _ => false

/-- Whether an event is a push onto the output-text sequence. -/
def Event.isPushText : Event → Bool
  | .pushText _ => true
  | _ => false

/-- Number of chat-completion calls in a trace. -/
def completionCount (evs : List Event) : Nat :=
  (evs.filter Event.isCompletion).length

/-- The tool invocations in a trace, in order. -/
def invokes (evs : List Event) : List (String × Json) :=
  evs.filterMap fun
    | .invoke n a => some (n, a)
    | _ => none

/-- The `tools` arguments of the completion calls in a trace, in order. -/
def completionToolArgs (evs : List Event) : List (Option (List OpenAiTool)) :=
  evs.filterMap fun
    | .completion _ t => some t
    | _ => none

/-- The message lists of the completion calls in a trace, in order. -/
def completionMessages (evs : List Event) : List (List ChatMessage) :=
  evs.filterMap fun
    | .completion m _ => some m
    | _ => none

/-- The tool-call ids referenced by the tool messages of a message list,
in order. -/
def toolMsgIds (msgs : List ChatMessage) : List String :=
  msgs.filterMap fun
    | .tool _ id => some id
    | _ => none

/-- The tool-call ids carried by the assistant messages of a message
list, in order. -/
def asstCallIds (msgs : List ChatMessage) : List String :=
  msgs.flatMap fun
    | .assistant _ tcs => tcs.map fun tc => tc.id
    | _ => []

/-- A tool call whose arguments parse and whose invocation succeeds. -/
def callOk (inv : String → Json → Except ToolError ToolResult) (tc : ToolCall) : Bool :=
  match tc.function.arguments with
  | none => false
  | some a =>
    match inv tc.function.name a with
    | Except.ok _ => true
    | Except.error _ => false

/-- The parsed arguments of a tool call (null when the payload was
invalid; only used under a `callOk` hypothesis). -/
def parsedArgs (tc : ToolCall) : Json :=
  tc.function.arguments.getD Json.null

/-- The result of invoking a tool call (a null payload when it fails;
only used under a `callOk` hypothesis). -/
def invokeResult (inv : String → Json → Except ToolError ToolResult) (tc : ToolCall) : ToolResult :=
  match inv tc.function.name (parsedArgs tc) with
  | Except.ok r => r
  | Except.error _ => { content := Json.null }

/-- The three events one successfully executed tool call contributes. -/
def perToolEvents (tc : ToolCall) : List Event :=
  [Event.consoleLog (logLine tc.function.name (parsedArgs tc)),
   Event.invoke tc.function.name (parsedArgs tc),
   Event.pushText (traceLine tc.function.name (parsedArgs tc))]


/-- The message list sent on the second completion call of a successful
two-round run, as assembled by `processQuery`. -/
def secondRoundMessages (env : Env) (q : String) (tcs : List ToolCall) : List ChatMessage :=
  ChatMessage.user q ::
    ChatMessage.assistant (env.resp1.content.getD "") tcs ::
    tcs.map fun tc =>
      ChatMessage.tool (Json.stringify (invokeResult env.invoke tc).content) tc.id

/-! ### Concrete scenario data -/

/-- Parsed arguments of the add scenario from the spec. -/
def addArgs : Json := Json.obj [("a", Json.num 2), ("b", Json.num 3)]

/-- The tool-call request of the add scenario. -/
def addCall : ToolCall :=
  { id := "call_1", function := { name := "add", arguments := some addArgs } }

/-- A transport on which every invocation succeeds with payload 5. -/
def addInvoke : String → Json → Except ToolError ToolResult :=
  fun _ _ => Except.ok { content := Json.num 5 }

/-- Environment of the add scenario: the first response requests one add
call with no content; the second response answers "The sum is 5". -/
def addEnv : Env :=
  { resp1 := { content := none, tool_calls := some [addCall] }
  , resp2 := { content := some "The sum is 5", tool_calls := none }
  , invoke := addInvoke }

/-- The discovered add tool, with every optional schema field missing. -/
def addToolDesc : ToolDescriptor :=
  { name := "add", description := none
  , input_schema := { properties := none, required := none } }

/-- The adapted spec of the add tool. -/
def addToolSpec : OpenAiTool := openAiToolAdapter addToolDesc

/-- An environment whose first response carries a present-but-empty
tool-call list. -/
def emptyCallsEnv : Env :=
  { resp1 := { content := some "hi", tool_calls := some [] }
  , resp2 := { content := some "done", tool_calls := none }
  , invoke := addInvoke }

/-- A tool call whose argument payload is not valid JSON. -/
def badCall : ToolCall :=
  { id := "call_9", function := { name := "add", arguments := none } }

/-- An environment whose first response requests one malformed tool call. -/
def badEnv : Env :=
  { resp1 := { content := none, tool_calls := some [badCall] }
  , resp2 := { content := none, tool_calls := none }
  , invoke := addInvoke }

/-- An environment whose first response has content and no tool-call list. -/
def plainEnv : Env :=
  { resp1 := { content := some "hi", tool_calls := none }
  , resp2 := { content := none, tool_calls := none }
  , invoke := addInvoke }

/-! ### Run-shape lemmas -/

theorem callTools_ok (inv : String → Json → Except ToolError ToolResult) :
    ∀ tcs : List ToolCall, (∀ tc ∈ tcs, callOk inv tc = true) →
    callTools inv tcs =
      (Except.ok (tcs.map fun tc => { toolCallId := tc.id, result := invokeResult inv tc }),
       tcs.flatMap perToolEvents,
       tcs.map fun tc => traceLine tc.function.name (parsedArgs tc))
  | [], _ => rfl
  | tc :: rest, h => by
      have hok := h tc (List.mem_cons_self tc rest)
      have ih := callTools_ok inv rest (fun t ht => h t (List.mem_cons_of_mem tc ht))
      cases ha : tc.function.arguments with
      | none => simp [callOk, ha] at hok
      | some a =>
          cases hr : inv tc.function.name a with
          | error e => simp [callOk, ha, hr] at hok
          | ok r =>
              simp [callTools, ha, hr, ih, Except.map, perToolEvents, parsedArgs, invokeResult]

theorem callTools_parse_error (inv : String → Json → Except ToolError ToolResult)
    (bad : ToolCall) (hbad : bad.function.arguments = none) :
    ∀ pre rest : List ToolCall, (∀ tc ∈ pre, callOk inv tc = true) →
    callTools inv (pre ++ bad :: rest) =
      (Except.error (QueryError.argumentParse bad.function.name),
       pre.flatMap perToolEvents,
       pre.map fun tc => traceLine tc.function.name (parsedArgs tc))
  | [], rest, _ => by simp [callTools, hbad]
  | tc :: pre, rest, h => by
      have hok := h tc (List.mem_cons_self tc pre)
      have ih := callTools_parse_error inv bad hbad pre rest
        (fun t ht => h t (List.mem_cons_of_mem tc ht))
      cases ha : tc.function.arguments with
      | none => simp [callOk, ha] at hok
      | some a =>
          cases hr : inv tc.function.name a with
          | error e => simp [callOk, ha, hr] at hok
          | ok r =>
              simp [callTools, ha, hr, ih, Except.map, perToolEvents, parsedArgs]

theorem callTools_events_not_completion (inv : String → Json → Except ToolError ToolResult) :
    ∀ tcs : List ToolCall, ∀ e ∈ (callTools inv tcs).2.1, e.isCompletion = false
  | [], e, he => by simp [callTools] at he
  | tc :: rest, e, he => by
      cases ha : tc.function.arguments with
      | none => simp [callTools, ha] at he
      | some a =>
          cases hr : inv tc.function.name a with
          | error er =>
              simp [callTools, ha, hr] at he
              rcases he with h1 | h1 <;> simp [h1, Event.isCompletion]
          | ok r =>
              simp [callTools, ha, hr] at he
              rcases he with h1 | h1 | h1 | h1
              · simp [h1, Event.isCompletion]
              · simp [h1, Event.isCompletion]
              · simp [h1, Event.isCompletion]
              · exact callTools_events_not_completion inv rest e h1

theorem processQuery_no_toolcalls (env : Env) (tools : List OpenAiTool) (q : String)
    (h : env.resp1.tool_calls = none) :
    processQuery env tools q =
      (Except.ok (String.intercalate "\n" (contentTexts env.resp1)),
       Event.completion [ChatMessage.user q] (toolsParam tools) ::
         (contentTexts env.resp1).map Event.pushText) := by
  simp [processQuery, h]

theorem processQuery_run_ok (env : Env) (tools : List OpenAiTool) (q : String)
    (tcs : List ToolCall) (h : env.resp1.tool_calls = some tcs)
    (hok : ∀ tc ∈ tcs, callOk env.invoke tc = true) :
    processQuery env tools q =
      (Except.ok (String.intercalate "\n"
         (contentTexts env.resp1
           ++ (tcs.map fun tc => traceLine tc.function.name (parsedArgs tc))
           ++ contentTexts env.resp2)),
       Event.completion [ChatMessage.user q] (toolsParam tools) ::
         ((contentTexts env.resp1).map Event.pushText
           ++ tcs.flatMap perToolEvents
           ++ Event.completion
                (ChatMessage.user q ::
                  ChatMessage.assistant (env.resp1.content.getD "") tcs ::
                  tcs.map (fun tc =>
                    ChatMessage.tool (Json.stringify (invokeResult env.invoke tc).content) tc.id))
                (toolsParam tools)
             :: (contentTexts env.resp2).map Event.pushText)) := by
  simp [processQuery, h, callTools_ok env.invoke tcs hok, List.map_map]

theorem processQuery_parse_error (env : Env) (tools : List OpenAiTool) (q : String)
    (pre : List ToolCall) (bad : ToolCall) (rest : List ToolCall)
    (h : env.resp1.tool_calls = some (pre ++ bad :: rest))
    (hok : ∀ tc ∈ pre, callOk env.invoke tc = true)
    (hbad : bad.function.arguments = none) :
    processQuery env tools q =
      (Except.error (QueryError.argumentParse bad.function.name),
       Event.completion [ChatMessage.user q] (toolsParam tools) ::
         ((contentTexts env.resp1).map Event.pushText ++ pre.flatMap perToolEvents)) := by
  simp [processQuery, h, callTools_parse_error env.invoke bad hbad pre rest hok]

/-! ### Observer lemmas -/

theorem completionToolArgs_pushes (l : List String) :
    completionToolArgs (l.map Event.pushText) = [] := by
  simp [completionToolArgs]

theorem completionCount_pushes (l : List String) :
    completionCount (l.map Event.pushText) = 0 := by
  simp [completionCount, Event.isCompletion]

theorem invokes_pushes (l : List String) :
    invokes (l.map Event.pushText) = [] := by
  simp [invokes]

theorem completionMessages_pushes (l : List String) :
    completionMessages (l.map Event.pushText) = [] := by
  simp [completionMessages]

theorem completionToolArgs_perTool (tcs : List ToolCall) :
    completionToolArgs (tcs.flatMap perToolEvents) = [] := by
  induction tcs with
  | nil => rfl
  | cons tc t ih =>
      simpa [completionToolArgs, perToolEvents, List.filterMap_cons, List.flatMap_cons] using ih

theorem completionCount_perTool (tcs : List ToolCall) :
    completionCount (tcs.flatMap perToolEvents) = 0 := by
  induction tcs with
  | nil => rfl
  | cons tc t ih =>
      simpa [completionCount, perToolEvents, Event.isCompletion, List.filter_cons,
        List.flatMap_cons] using ih

theorem completionMessages_perTool (tcs : List ToolCall) :
    completionMessages (tcs.flatMap perToolEvents) = [] := by
  induction tcs with
  | nil => rfl
  | cons tc t ih =>
      simpa [completionMessages, perToolEvents, List.filterMap_cons, List.flatMap_cons] using ih

theorem invokes_perTool (tcs : List ToolCall) :
    invokes (tcs.flatMap perToolEvents) = tcs.map fun tc => (tc.function.name, parsedArgs tc) := by
  induction tcs with
  | nil => rfl
  | cons tc t ih =>
      simpa [invokes, perToolEvents, List.filterMap_cons, List.flatMap_cons] using ih

theorem completionToolArgs_callTools (inv : String → Json → Except ToolError ToolResult)
    (tcs : List ToolCall) : completionToolArgs (callTools inv tcs).2.1 = [] := by
  have h := callTools_events_not_completion inv tcs
  rw [completionToolArgs, List.filterMap_eq_nil_iff]
  intro e he
  have := h e he
  cases e <;> simp_all [Event.isCompletion]

theorem completionToolArgs_cons_completion (m : List ChatMessage)
    (tp : Option (List OpenAiTool)) (evs : List Event) :
    completionToolArgs (Event.completion m tp :: evs) = tp :: completionToolArgs evs := rfl

theorem completionCount_cons_completion (m : List ChatMessage)
    (tp : Option (List OpenAiTool)) (evs : List Event) :
    completionCount (Event.completion m tp :: evs) = completionCount evs + 1 := by
  simp [completionCount, List.filter_cons, Event.isCompletion]

theorem completionMessages_cons_completion (m : List ChatMessage)
    (tp : Option (List OpenAiTool)) (evs : List Event) :
    completionMessages (Event.completion m tp :: evs) = m :: completionMessages evs := rfl

theorem invokes_cons_completion (m : List ChatMessage)
    (tp : Option (List OpenAiTool)) (evs : List Event) :
    invokes (Event.completion m tp :: evs) = invokes evs := rfl

theorem completionToolArgs_append (l1 l2 : List Event) :
    completionToolArgs (l1 ++ l2) = completionToolArgs l1 ++ completionToolArgs l2 :=
  List.filterMap_append l1 l2 _

theorem completionMessages_append (l1 l2 : List Event) :
    completionMessages (l1 ++ l2) = completionMessages l1 ++ completionMessages l2 :=
  List.filterMap_append l1 l2 _

theorem invokes_append (l1 l2 : List Event) :
    invokes (l1 ++ l2) = invokes l1 ++ invokes l2 :=
  List.filterMap_append l1 l2 _

theorem completionCount_append (l1 l2 : List Event) :
    completionCount (l1 ++ l2) = completionCount l1 + completionCount l2 := by
  simp [completionCount, List.filter_append]

theorem toolMsgIds_of_toolMsgs (tcs : List ToolCall) (f : ToolCall → String) :
    toolMsgIds (tcs.map fun tc => ChatMessage.tool (f tc) tc.id) =
      tcs.map fun tc => tc.id := by
  induction tcs with
  | nil => rfl
  | cons tc t ih => simpa [toolMsgIds, List.filterMap_cons] using ih

theorem asstCallIds_of_toolMsgs (tcs : List ToolCall) (f : ToolCall → String) :
    asstCallIds (tcs.map fun tc => ChatMessage.tool (f tc) tc.id) = [] := by
  simp [asstCallIds]

theorem toolMsgIds_cons_user (c : String) (msgs : List ChatMessage) :
    toolMsgIds (ChatMessage.user c :: msgs) = toolMsgIds msgs := rfl

theorem toolMsgIds_cons_assistant (c : String) (tcs : List ToolCall) (msgs : List ChatMessage) :
    toolMsgIds (ChatMessage.assistant c tcs :: msgs) = toolMsgIds msgs := rfl

theorem asstCallIds_cons_user (c : String) (msgs : List ChatMessage) :
    asstCallIds (ChatMessage.user c :: msgs) = asstCallIds msgs := rfl

theorem asstCallIds_cons_assistant (c : String) (tcs : List ToolCall) (msgs : List ChatMessage) :
    asstCallIds (ChatMessage.assistant c tcs :: msgs) =
      (tcs.map fun tc => tc.id) ++ asstCallIds msgs := rfl

theorem toolMsgIds_secondRound (env : Env) (q : String) (tcs : List ToolCall) :
    toolMsgIds (secondRoundMessages env q tcs) = tcs.map fun tc => tc.id := by
  rw [secondRoundMessages, toolMsgIds_cons_user, toolMsgIds_cons_assistant,
    toolMsgIds_of_toolMsgs]

theorem asstCallIds_secondRound (env : Env) (q : String) (tcs : List ToolCall) :
    asstCallIds (secondRoundMessages env q tcs) = tcs.map fun tc => tc.id := by
  rw [secondRoundMessages, asstCallIds_cons_user, asstCallIds_cons_assistant,
    asstCallIds_of_toolMsgs, List.append_nil]

/-! ### Claims -/

/-- Claim C3: the schema adapter is deterministic and total — it is a total
function on `ToolDescriptor` (matching the source, which can not throw on
such inputs and passes nested schema content through opaquely) — and it
yields description "Tool: <name>" when the description is missing, an empty
properties mapping when properties is missing, and an empty required list
when required is missing. -/
theorem C3_adapter_total_defaults (t : ToolDescriptor) :
    (openAiToolAdapter t).type = "function" ∧
    (openAiToolAdapter t).function.name = t.name ∧
    (openAiToolAdapter t).function.parameters.type = "object" ∧
    (t.description = none →
      (openAiToolAdapter t).function.description = "Tool: " ++ t.name) ∧
    (t.input_schema.properties = none →
      (openAiToolAdapter t).function.parameters.properties = Json.obj []) ∧
    (t.input_schema.required = none →
      (openAiToolAdapter t).function.parameters.required = []) := by
  refine ⟨rfl, rfl, rfl, fun h => ?_, fun h => ?_, fun h => ?_⟩ <;>
    simp [openAiToolAdapter, jsStrOr, jsJsonOr, h]

/-- Witness for C3 at the add descriptor, whose optional fields are all
missing. -/
theorem C3_witness :
    addToolDesc.description = none ∧
    (openAiToolAdapter addToolDesc).function.description = "Tool: add" ∧
    (openAiToolAdapter addToolDesc).function.parameters.properties = Json.obj [] ∧
    (openAiToolAdapter addToolDesc).function.parameters.required = [] :=
  ⟨rfl, (C3_adapter_total_defaults addToolDesc).2.2.2.1 rfl,
    (C3_adapter_total_defaults addToolDesc).2.2.2.2.1 rfl,
    (C3_adapter_total_defaults addToolDesc).2.2.2.2.2 rfl⟩

/-- Claim C8: every `processQuery` call starts from a fresh message list
containing exactly one user message with the query text — independently of
any earlier query — and leaves the session state (the adapted tool-spec
list; the transport handle lives in the unchanged environment) unchanged. -/
theorem C8_fresh_messages_frame (env : Env) (st : MCPClientState) (q : String) :
    (processQueryS env st q).2 = st ∧
    (processQueryS env st q).1.2.head? =
      some (Event.completion [ChatMessage.user q] (toolsParam st.tools)) := by
  refine ⟨rfl, ?_⟩
  show (processQuery env st.tools q).2.head? = _
  cases h : env.resp1.tool_calls with
  | none => simp [processQuery_no_toolcalls env st.tools q h]
  | some tcs =>
      cases hc : (callTools env.invoke tcs).1 with
      | error e => simp [processQuery, h, hc]
      | ok rs => simp [processQuery, h, hc]

/-- Claim C4: every completion call of a session that discovered zero tools
carries no tools field at all (`none`, not an empty list), and every
completion call of a session with a non-empty tool set carries the full
adapted list; this covers both rounds, since every completion event of any
run carries `toolsParam tools`. -/
theorem C4_tools_field (env : Env) (tools : List OpenAiTool) (q : String) :
    (∀ t ∈ completionToolArgs (processQuery env tools q).2, t = toolsParam tools) ∧
    toolsParam ([] : List OpenAiTool) = none ∧
    (tools ≠ [] → toolsParam tools = some tools) := by
  refine ⟨?_, rfl, fun h => by simp [toolsParam, List.length_pos, h]⟩
  intro t ht
  cases h : env.resp1.tool_calls with
  | none =>
      rw [processQuery_no_toolcalls env tools q h] at ht
      simpa [completionToolArgs_cons_completion, completionToolArgs_pushes] using ht
  | some tcs =>
      cases hc : (callTools env.invoke tcs).1 with
      | error e =>
          simp [processQuery, h, hc, completionToolArgs_cons_completion,
            completionToolArgs_append, completionToolArgs_pushes,
            completionToolArgs_callTools] at ht
          exact ht
      | ok rs =>
          simp [processQuery, h, hc, completionToolArgs_cons_completion,
            completionToolArgs_append, completionToolArgs_pushes,
            completionToolArgs_callTools] at ht
          exact ht

/-- Witness for C4 on the add scenario: the (sole, repeated) tools argument
of its completion calls is the full one-element adapted list. -/
theorem C4_witness :
    some [addToolSpec] = toolsParam [addToolSpec] :=
  (C4_tools_field addEnv [addToolSpec] "add 2 and 3").1 (some [addToolSpec])
    (by
      have he : completionToolArgs (processQuery addEnv [addToolSpec] "add 2 and 3").2
          = [some [addToolSpec], some [addToolSpec]] := rfl
      rw [he]
      exact List.mem_cons_self _ _)

/-- Claim C1 fails as stated: the source gates the second round on the
JavaScript truthiness of `choice.message.tool_calls`, and an empty array is
truthy, so a first-round response carrying zero tool-call requests (a
present-but-empty list) still makes `processQuery` perform two Completion
Client calls instead of exactly one. -/
theorem C1_counterexample :
    (emptyCallsEnv.resp1.tool_calls.getD []).length = 0 ∧
    completionCount (processQuery emptyCallsEnv [] "hello").2 = 2 ∧
    invokes (processQuery emptyCallsEnv [] "hello").2 = [] :=
  ⟨rfl, rfl, rfl⟩

/-- Claim C1 (amended): if the first response carries no tool-call list,
`processQuery` performs exactly one Completion Client call and zero
Transport Adapter invocations; if it carries a tool-call list (possibly
empty) whose entries all parse and execute successfully, it performs
exactly two Completion Client calls and exactly one invocation per entry,
in the order the model supplied them. -/
theorem C1_call_counts (env : Env) (tools : List OpenAiTool) (q : String) :
    (env.resp1.tool_calls = none →
      completionCount (processQuery env tools q).2 = 1 ∧
      invokes (processQuery env tools q).2 = []) ∧
    (∀ tcs, env.resp1.tool_calls = some tcs →
      (∀ tc ∈ tcs, callOk env.invoke tc = true) →
      completionCount (processQuery env tools q).2 = 2 ∧
      invokes (processQuery env tools q).2 =
        tcs.map fun tc => (tc.function.name, parsedArgs tc)) := by
  constructor
  · intro h
    rw [processQuery_no_toolcalls env tools q h]
    exact ⟨by simp [completionCount_cons_completion, completionCount_pushes],
      by simp [invokes_cons_completion, invokes_pushes]⟩
  · intro tcs h hok
    rw [processQuery_run_ok env tools q tcs h hok]
    exact ⟨by simp [completionCount_cons_completion, completionCount_append,
        completionCount_pushes, completionCount_perTool],
      by simp [invokes_cons_completion, invokes_append, invokes_pushes, invokes_perTool]⟩

/-- Witness for the amended C1: a contentful no-tool-call run makes one
completion call, and the add run makes two completion calls and one
invocation. -/
theorem C1_witness :
    (completionCount (processQuery plainEnv [] "hello").2 = 1 ∧
      invokes (processQuery plainEnv [] "hello").2 = []) ∧
    (completionCount (processQuery addEnv [addToolSpec] "add 2 and 3").2 = 2 ∧
      invokes (processQuery addEnv [addToolSpec] "add 2 and 3").2 =
        [addCall].map fun tc => (tc.function.name, parsedArgs tc)) :=
  ⟨(C1_call_counts plainEnv [] "hello").1 rfl,
    (C1_call_counts addEnv [addToolSpec] "add 2 and 3").2 [addCall] rfl (by decide)⟩

/-- Claim C2: for every successful run the returned string is the
newline-join, in emission order, of the first response content (if any),
one trace line per tool call in request order, and the second response
content (if any). -/
theorem C2_output_text (env : Env) (tools : List OpenAiTool) (q : String) :
    (env.resp1.tool_calls = none →
      (processQuery env tools q).1 =
        Except.ok (String.intercalate "\n" (contentTexts env.resp1))) ∧
    (∀ tcs, env.resp1.tool_calls = some tcs →
      (∀ tc ∈ tcs, callOk env.invoke tc = true) →
      (processQuery env tools q).1 =
        Except.ok (String.intercalate "\n"
          (contentTexts env.resp1
            ++ (tcs.map fun tc => traceLine tc.function.name (parsedArgs tc))
            ++ contentTexts env.resp2))) := by
  constructor
  · intro h
    rw [processQuery_no_toolcalls env tools q h]
  · intro tcs h hok
    rw [processQuery_run_ok env tools q tcs h hok]

/-- Witness for C2: the add scenario returns exactly the string the spec
requires. -/
theorem C2_witness :
    (processQuery addEnv [addToolSpec] "add 2 and 3").1 =
      Except.ok "[Calling tool add with args \x7b\"a\":2,\"b\":3\x7d]\nThe sum is 5" :=
  ((C2_output_text addEnv [addToolSpec] "add 2 and 3").2 [addCall] rfl
    (by decide)).trans (by rfl)

/-- Claim C10: a first response whose tool-call list is present but empty
still triggers the second Completion Client call, with the assistant
message appended and zero tool messages, and zero Transport Adapter
invocations. -/
theorem C10_empty_toolcall_list (env : Env) (tools : List OpenAiTool) (q : String)
    (h : env.resp1.tool_calls = some []) :
    completionCount (processQuery env tools q).2 = 2 ∧
    invokes (processQuery env tools q).2 = [] ∧
    completionMessages (processQuery env tools q).2 =
      [[ChatMessage.user q],
       [ChatMessage.user q, ChatMessage.assistant (env.resp1.content.getD "") []]] := by
  rw [processQuery_run_ok env tools q [] h (by simp)]
  refine ⟨?_, ?_, ?_⟩ <;>
    simp [completionCount_cons_completion, completionCount_append, completionCount_pushes,
      invokes_cons_completion, invokes_append, invokes_pushes,
      completionMessages_cons_completion, completionMessages_append, completionMessages_pushes]

/-- Witness for C10 at a concrete present-but-empty run. -/
theorem C10_witness :
    completionCount (processQuery emptyCallsEnv [] "hi there").2 = 2 ∧
    invokes (processQuery emptyCallsEnv [] "hi there").2 = [] ∧
    completionMessages (processQuery emptyCallsEnv [] "hi there").2 =
      [[ChatMessage.user "hi there"],
       [ChatMessage.user "hi there",
        ChatMessage.assistant (emptyCallsEnv.resp1.content.getD "") []]] :=
  C10_empty_toolcall_list emptyCallsEnv [] "hi there" rfl

/-- Claim C5: if a tool-call request in the batch carries an argument
payload that is not valid JSON, `processQuery` fails with a parse error
before that tool is invoked; the only invocations are those of the earlier
calls in the batch, none of the remaining calls is attempted, and no
second Completion Client call is made. -/
theorem C5_parse_error_aborts (env : Env) (tools : List OpenAiTool) (q : String)
    (pre : List ToolCall) (bad : ToolCall) (rest : List ToolCall)
    (h : env.resp1.tool_calls = some (pre ++ bad :: rest))
    (hok : ∀ tc ∈ pre, callOk env.invoke tc = true)
    (hbad : bad.function.arguments = none) :
    (processQuery env tools q).1 =
      Except.error (QueryError.argumentParse bad.function.name) ∧
    invokes (processQuery env tools q).2 =
      (pre.map fun tc => (tc.function.name, parsedArgs tc)) ∧
    completionCount (processQuery env tools q).2 = 1 := by
  rw [processQuery_parse_error env tools q pre bad rest h hok hbad]
  refine ⟨rfl, ?_, ?_⟩
  · simp [invokes_cons_completion, invokes_append, invokes_pushes, invokes_perTool]
  · simp [completionCount_cons_completion, completionCount_append, completionCount_pushes,
      completionCount_perTool]

/-- Witness for C5: a batch whose only call has a malformed payload fails
with the parse error, no tool is invoked, and only one completion call is
made. -/
theorem C5_witness :
    (processQuery badEnv [] "add 2 and 3").1 =
      Except.error (QueryError.argumentParse "add") ∧
    invokes (processQuery badEnv [] "add 2 and 3").2 = [] ∧
    completionCount (processQuery badEnv [] "add 2 and 3").2 = 1 := by
  simpa using C5_parse_error_aborts badEnv [] "add 2 and 3" [] badCall [] rfl (by simp) rfl

/-- Claim C6 fails as stated: the source pushes the trace line onto the
output-text sequence only after awaiting the tool invocation, so in the add
run the invocation event (index 2 of the trace) strictly precedes the first
push onto the output-text sequence (index 3). -/
theorem C6_counterexample :
    (processQuery addEnv [addToolSpec] "add 2 and 3").2.findIdx Event.isInvoke = 2 ∧
    (processQuery addEnv [addToolSpec] "add 2 and 3").2.findIdx Event.isPushText = 3 ∧
    (processQuery addEnv [addToolSpec] "add 2 and 3").2.findIdx Event.isInvoke <
      (processQuery addEnv [addToolSpec] "add 2 and 3").2.findIdx Event.isPushText :=
  ⟨rfl, rfl, by decide⟩

/-- Claim C6 (amended): for every executed tool call the source prints a
console diagnostic line before the invocation, and pushes the trace line
"[Calling tool <name> with args <json>]" onto the output-text sequence
immediately after the invocation returns, before the next tool call is
processed; the pushed trace lines appear in request order. -/
theorem C6_trace_after_invocation (inv : String → Json → Except ToolError ToolResult)
    (tcs : List ToolCall) (hok : ∀ tc ∈ tcs, callOk inv tc = true) :
    (callTools inv tcs).2.1 = tcs.flatMap perToolEvents ∧
    (callTools inv tcs).2.2 =
      (tcs.map fun tc => traceLine tc.function.name (parsedArgs tc)) := by
  rw [callTools_ok inv tcs hok]
  exact ⟨rfl, rfl⟩

/-- Witness for the amended C6 on the add batch. -/
theorem C6_witness :
    (callTools addInvoke [addCall]).2.1 = [addCall].flatMap perToolEvents ∧
    (callTools addInvoke [addCall]).2.2 =
      ([addCall].map fun tc => traceLine tc.function.name (parsedArgs tc)) :=
  C6_trace_after_invocation addInvoke [addCall] (by decide)

/-- Claim C7 fails as stated: `chatLoop` has no per-query catch, so an
error raised out of `processQuery` propagates and terminates the session
loop — here the second input line is never processed and no response is
printed. -/
theorem C7_counterexample :
    chatLoop (fun q => (processQuery badEnv [] q).1) ["add 2 and 3", "hello again"] =
      ([], some (QueryError.argumentParse "add")) := rfl

/-- Claim C7 (amended): a per-query error aborts that query and propagates
out of the session loop, which terminates without processing any further
input line (cleanup then runs at top level and the process exits). -/
theorem C7_error_ends_loop (process : String → Except QueryError String)
    (q : String) (rest : List String) (e : QueryError)
    (hq : q ≠ "exit") (h : process q = Except.error e) :
    chatLoop process (q :: rest) = ([], some e) := by
  simp [chatLoop, hq, h]

/-- Witness for the amended C7: a failing first query ends the loop before
the second query. -/
theorem C7_witness :
    chatLoop (fun q => (processQuery badEnv [] q).1) ["first query", "second query"] =
      ([], some (QueryError.argumentParse "add")) :=
  C7_error_ends_loop (fun q => (processQuery badEnv [] q).1) "first query"
    ["second query"] (QueryError.argumentParse "add") (by decide) rfl

/-- Claim C9: in every message list sent on the second completion round,
the tool messages follow the assistant message directly, reference exactly
the tool-call ids of that immediately preceding assistant message, and do
so in the order of the requests. -/
theorem C9_tool_message_ids (env : Env) (tools : List OpenAiTool) (q : String)
    (tcs : List ToolCall) (h : env.resp1.tool_calls = some tcs)
    (hok : ∀ tc ∈ tcs, callOk env.invoke tc = true) :
    completionMessages (processQuery env tools q).2 =
      [[ChatMessage.user q], secondRoundMessages env q tcs] ∧
    toolMsgIds (secondRoundMessages env q tcs) =
      asstCallIds (secondRoundMessages env q tcs) ∧
    asstCallIds (secondRoundMessages env q tcs) = tcs.map fun tc => tc.id := by
  refine ⟨?_, ?_, ?_⟩
  · rw [processQuery_run_ok env tools q tcs h hok]
    simp [completionMessages_cons_completion, completionMessages_append,
      completionMessages_pushes, completionMessages_perTool, secondRoundMessages]
  · rw [toolMsgIds_secondRound, asstCallIds_secondRound]
  · rw [asstCallIds_secondRound]

/-- Witness for C9 on the add scenario. -/
theorem C9_witness :
    completionMessages (processQuery addEnv [addToolSpec] "add 2 and 3").2 =
      [[ChatMessage.user "add 2 and 3"],
       secondRoundMessages addEnv "add 2 and 3" [addCall]] ∧
    toolMsgIds (secondRoundMessages addEnv "add 2 and 3" [addCall]) =
      asstCallIds (secondRoundMessages addEnv "add 2 and 3" [addCall]) ∧
    asstCallIds (secondRoundMessages addEnv "add 2 and 3" [addCall]) =
      [addCall].map fun tc => tc.id :=
  C9_tool_message_ids addEnv [addToolSpec] "add 2 and 3" [addCall] rfl (by decide)
